import Mathlib

/-
Verification of the row-synchronization engine of `use-supabase-state`
(src/useRowState.ts and src/init.ts), as a shallow embedding.

The hook `useSupabaseRowState` owns two React state cells (`data : T | null`,
`isLoaded : boolean`), a channel ref, an async initial fetch guarded by a
per-effect `isMounted` flag, a realtime callback, an optimistic setter
`setRow`, and a returned `unsubscribe` function.  We model the mutable cells
as an explicit record `EngineState` and each asynchronous completion or
synchronous call as a state transformer translated line-by-line from the
source.  Calls to the configured logger are recorded in a `logs` list
(newest first); Supabase `update` calls scheduled by `setRow` are recorded
in a `scheduledSyncs` list of payloads.
-/

namespace UseSupabaseState

/-- Result of the initial point read
`supabase.from(table).select(select).eq(primaryKey, rowId).single()`:
a `row` (the `data` field of the response) and an `error`, both possibly
absent. -/
structure FetchResult (T : Type) where
  row : Option T
  error : Option String
deriving DecidableEq

/-- Contract of the Supabase `.single()` builder: it resolves either with a
row and no error, or with no row and an error (zero rows and failures both
surface as an error value, never as a bare empty result). -/
def FetchResult.wellFormed {T : Type} (res : FetchResult T) : Prop :=
  (res.row.isSome = true ∧ res.error = none) ∨
    (res.row.isNone = true ∧ res.error.isSome = true)

instance {T : Type} (res : FetchResult T) : Decidable res.wellFormed := by
  unfold FetchResult.wellFormed
  infer_instance

/-- A realtime `postgres_changes` payload as consumed by the callback:
`payload.eventType` is INSERT, UPDATE or DELETE, and for INSERT/UPDATE the
callback reads `payload.new`. -/
inductive ChangeEvent (T : Type) where
  | insert (newRow : T)
  | update (newRow : T)
  | delete
deriving DecidableEq

/-- The source type `RowUpdater<T> = ((prev: T | null) => T) | T`: either an
updater function of the previous value or a literal replacement.  The
codomain is `Option T` because the code re-checks the computed value for
nullishness at runtime (`if (autoSync && next)`), which the TypeScript type
alone cannot rule out. -/
inductive RowUpdater (T : Type) where
  | fn (f : Option T → Option T)
  | lit (v : Option T)

/-- `typeof updater === 'function' ? updater(prev) : updater`. -/
def applyUpdater {T : Type} (u : RowUpdater T) (prev : Option T) : Option T :=
  match u with
  | .fn f => f prev
  | .lit v => v

/-- The mutable state owned by one mounted hook instance:
`data` and `isLoaded` are the two `useState` cells, `channelRef` records
whether `channelRef.current` is set, `channelOpen` whether the realtime
channel is still subscribed (i.e. `removeChannel` has not been called),
`isMounted` is the fetch effect's cancellation flag (reset only by the
effect cleanup on unmount), `logs` the messages passed to the logger
(newest first) and `scheduledSyncs` the payloads of the asynchronous
`update` calls scheduled so far by `setRow`. -/
structure EngineState (T : Type) where
  data : Option T
  isLoaded : Bool
  channelRef : Bool
  channelOpen : Bool
  isMounted : Bool
  logs : List String
  scheduledSyncs : List T
deriving DecidableEq

/-- State right after mount with a present `rowId`: `useState(null)`,
`useState(false)`, the fetch effect in flight with `isMounted = true`, and
the realtime effect having subscribed the channel and set the ref. -/
def initEngineState (T : Type) : EngineState T :=
  { data := none, isLoaded := false, channelRef := true, channelOpen := true,
    isMounted := true, logs := [], scheduledSyncs := [] }

/-- Logger message of the early-return branch. -/
def invalidRowIdMsg (table : String) : String :=
  "useSupabaseRowState: Invalid rowId for table " ++ table

/-- Logger message of a failed initial fetch. -/
def fetchFailMsg (table msg : String) : String :=
  "Failed to fetch row from " ++ table ++ ": " ++ msg

/-- Logger message of a failed auto-sync update. -/
def autoSyncFailMsg (msg : String) : String :=
  "Auto-sync failed: " ++ msg

/-- Completion of the initial read, translated from the body of `fetchRow`:
`if (!isMounted) return; if (error) logger(...); setIsLoaded(true);
if (row) setData(row)`. -/
def fetchComplete {T : Type} (table : String) (res : FetchResult T)
    (s : EngineState T) : EngineState T :=
  if s.isMounted = false then s
  else
    let s1 :=
      match res.error with
      | some msg => { s with logs := fetchFailMsg table msg :: s.logs }
      | none => s
    let s2 := { s1 with isLoaded := true }
    match res.row with
    | some row => { s2 with data := some row }
    | none => s2

/-- Delivery of a realtime event.  The guard models the Supabase realtime
channel: after `removeChannel` the callback is no longer invoked.  The body
is the `postgres_changes` callback: INSERT/UPDATE set `data = payload.new`
and `isLoaded = true`; DELETE sets `data = null` and keeps `isLoaded`. -/
def deliverChange {T : Type} (ev : ChangeEvent T) (s : EngineState T) :
    EngineState T :=
  if s.channelOpen = false then s
  else
    match ev with
    | .insert r => { s with data := some r, isLoaded := true }
    | .update r => { s with data := some r, isLoaded := true }
    | .delete => { s with data := none }

/-- The optimistic setter `setRow`: computes `next` from the previous value,
schedules `supabase.from(table).update(next).eq(primaryKey, rowId)` when
`autoSync && next`, and returns `next` as the new `data`. -/
def setRow {T : Type} (autoSync : Bool) (u : RowUpdater T)
    (s : EngineState T) : EngineState T :=
  let next := applyUpdater u s.data
  { s with
    data := next,
    scheduledSyncs :=
      match autoSync, next with
      | true, some v => s.scheduledSyncs ++ [v]
      | _, _ => s.scheduledSyncs }

/-- Completion of one scheduled auto-sync update, from the `.then` handler
in `setRow`: `if (error) logger(...)`; nothing else happens. -/
def persistComplete {T : Type} (err : Option String) (s : EngineState T) :
    EngineState T :=
  match err with
  | some msg => { s with logs := autoSyncFailMsg msg :: s.logs }
  | none => s

/-- The returned `unsubscribe` function:
`if (channelRef.current) supabase.removeChannel(channelRef.current)`.
It only closes the channel; it does not touch the fetch effect's
`isMounted` flag. -/
def unsubscribe {T : Type} (s : EngineState T) : EngineState T :=
  if s.channelRef then { s with channelOpen := false } else s

/-- The effect cleanups run on unmount: the fetch effect's
`return () => { isMounted = false }` and the realtime effect's
`return () => { supabase.removeChannel(channel) }`. -/
def unmountCleanup {T : Type} (s : EngineState T) : EngineState T :=
  { s with isMounted := false, channelOpen := false }

/-- One externally observable step of a mounted hook instance: an
asynchronous completion (fetch, realtime delivery, persist result) or a
synchronous call (`setRow`, `unsubscribe`, unmount). -/
inductive Op (T : Type) where
  | fetch (res : FetchResult T)
  | change (ev : ChangeEvent T)
  | set (u : RowUpdater T)
  | persistDone (err : Option String)
  | unsub
  | unmount

/-- Step function dispatching one `Op` to its translated handler. -/
def step {T : Type} (table : String) (autoSync : Bool) (op : Op T)
    (s : EngineState T) : EngineState T :=
  match op with
  | .fetch res => fetchComplete table res s
  | .change ev => deliverChange ev s
  | .set u => setRow autoSync u s
  | .persistDone err => persistComplete err s
  | .unsub => unsubscribe s
  | .unmount => unmountCleanup s

/-- Run a sequence of steps from a state. -/
def run {T : Type} (table : String) (autoSync : Bool) (ops : List (Op T))
    (s : EngineState T) : EngineState T :=
  ops.foldl (fun s op => step table autoSync op s) s

/-- The hook entry for a possibly missing `rowId`: when `rowId` is
null/undefined it logs (unless `skip`) and returns the literal tuple
`[null, createNoopSetter(), false, () => {}]` without creating any state;
otherwise it mounts an engine instance.  The first component is the engine
state when one was created, the second the messages logged during entry. -/
def mount (T : Type) (table : String) (rowId : Option String) (skip : Bool) :
    Option (EngineState T) × List String :=
  match rowId with
  | none => (none, if skip then [] else [invalidRowIdMsg table])
  | some _ => (some (initEngineState T), [])

/-- Observable `(data, isLoaded)` pair of a mount result: the early-return
branch exposes `null` and `false` permanently; a live instance exposes its
state cells. -/
def handleView {T : Type} (m : Option (EngineState T)) : Option T × Bool :=
  match m with
  | none => (none, false)
  | some s => (s.data, s.isLoaded)

/-- Translation of `createNoopSetter` (`() => {}`): the setter returned by
the early branch performs no mutation, so as a transformer of the
observable pair it is the identity. -/
def createNoopSetter (T : Type) :
    RowUpdater T → Option T × Bool → Option T × Bool :=
  fun _ v => v

/-- Translation of the early branch's unsubscribe slot (`() => {}`). -/
def noopDetach (T : Type) : Option T × Bool → Option T × Bool :=
  fun v => v

/-- `init.ts`: `initSupabaseState(client)` stores the client in the
module-level registry cell. -/
def initSupabaseState {C : Type} (client : C) (_reg : Option C) : Option C :=
  some client

/-- `init.ts`: `getSupabaseClient()` throws a configuration error when the
registry cell is empty, otherwise returns the stored client. -/
def getSupabaseClient {C : Type} (reg : Option C) : Except String C :=
  match reg with
  | none =>
    Except.error
      "Supabase client not initialized. Call initSupabaseState(client) first."
  | some c => Except.ok c

/-! Helper lemmas shared by the claim proofs. -/

/-- Delivering a realtime event never changes the fetch effect's
`isMounted` flag. -/
theorem deliverChange_isMounted {T : Type} (ev : ChangeEvent T)
    (s : EngineState T) : (deliverChange ev s).isMounted = s.isMounted := by
  unfold deliverChange
  cases ev <;> split <;> rfl

/-- The `isLoaded` cell after a fetch completion: unchanged when the effect
was cleaned up, true otherwise. -/
theorem fetchComplete_isLoaded {T : Type} (t : String) (res : FetchResult T)
    (s : EngineState T) :
    (fetchComplete t res s).isLoaded =
      (if s.isMounted = false then s.isLoaded else true) := by
  obtain ⟨row, err⟩ := res
  unfold fetchComplete
  cases row <;> cases err <;> split <;> rfl

/-- The `unsubscribe` handler changes at most the channel's subscribed
flag. -/
theorem unsubscribe_fields {T : Type} (s : EngineState T) :
    (unsubscribe s).data = s.data ∧
    (unsubscribe s).isLoaded = s.isLoaded ∧
    (unsubscribe s).isMounted = s.isMounted ∧
    (unsubscribe s).scheduledSyncs = s.scheduledSyncs := by
  unfold unsubscribe
  split <;> exact ⟨rfl, rfl, rfl, rfl⟩

/-- C5: a change-feed event delivered to an attached instance is applied by
the `postgres_changes` callback exactly as the source writes it: an INSERT
or UPDATE sets `data` to the payload's new row and `isLoaded` to true; a
DELETE sets `data` to null and leaves `isLoaded` unchanged. -/
theorem c5_change_callback {T : Type} (s : EngineState T) (r : T)
    (hc : s.channelOpen = true) :
    (deliverChange (ChangeEvent.insert r) s).data = some r ∧
    (deliverChange (ChangeEvent.insert r) s).isLoaded = true ∧
    (deliverChange (ChangeEvent.update r) s).data = some r ∧
    (deliverChange (ChangeEvent.update r) s).isLoaded = true ∧
    (deliverChange ChangeEvent.delete s).data = none ∧
    (deliverChange ChangeEvent.delete s).isLoaded = s.isLoaded := by
  simp [deliverChange, hc]

/-- Witness for C5 at a concrete instance. -/
theorem c5_change_callback_witness :
    (deliverChange (ChangeEvent.insert 3) (initEngineState Nat)).data =
        some 3 ∧
    (deliverChange (ChangeEvent.insert 3) (initEngineState Nat)).isLoaded =
        true ∧
    (deliverChange (ChangeEvent.update 3) (initEngineState Nat)).data =
        some 3 ∧
    (deliverChange (ChangeEvent.update 3) (initEngineState Nat)).isLoaded =
        true ∧
    (deliverChange ChangeEvent.delete (initEngineState Nat)).data = none ∧
    (deliverChange ChangeEvent.delete (initEngineState Nat)).isLoaded =
        (initEngineState Nat).isLoaded :=
  c5_change_callback (initEngineState Nat) 3 rfl

/-- C6: with a null/undefined `rowId` and `skip = false` the hook logs
exactly one diagnostic and returns the literal tuple with value null,
loaded false and no-op setter and detach; with `skip = true` the same
short-circuit happens silently. -/
theorem c6_missing_rowId (T : Type) (t : String) :
    (mount T t none false).2 = [invalidRowIdMsg t] ∧
    handleView (mount T t none false).1 = (none, false) ∧
    (mount T t none true).2 = [] ∧
    handleView (mount T t none true).1 = (none, false) ∧
    (∀ u v, createNoopSetter T u v = v) ∧
    (∀ v, noopDetach T v = v) :=
  ⟨rfl, rfl, rfl, rfl, fun _ _ => rfl, fun _ => rfl⟩

/-- C8 counterexample: the pre-fetch value of a freshly attached instance
is `null` itself — `useState<RowState<T>>(null)` — not a distinct Unknown
state distinguishable from null; moreover after the value transitions away
(an update event) a delete event returns it to exactly the initial value. -/
theorem c8_counterexample :
    (initEngineState Nat).data = none ∧
    (deliverChange ChangeEvent.delete
        (deliverChange (ChangeEvent.update 1) (initEngineState Nat))).data =
      (initEngineState Nat).data :=
  ⟨rfl, rfl⟩

/-- C8 amended: with a present `rowId`, attach synchronously returns a
handle whose value is null (the code has no separate Unknown state; "not
yet loaded" is signalled only by the loaded flag) and whose loaded flag is
false. -/
theorem c8_amended (T : Type) (t r : String) :
    handleView (mount T t (some r) false).1 = (none, false) :=
  rfl

/-- C3: `setRow` applies the updater (or literal) to the previous value
synchronously — the new `data` is exactly the computed result, with
`isLoaded` and the log untouched; when `autoSync` is true and the computed
value is non-null exactly one update is scheduled for that payload; a null
result or `autoSync = false` schedules nothing; and a failing persist
completion only appends a log entry — it never changes `data` (no
rollback) and never re-schedules (no retry). -/
theorem c3_setRow_optimistic {T : Type} (a : Bool) (u : RowUpdater T)
    (s : EngineState T) :
    (setRow a u s).data = applyUpdater u s.data ∧
    (setRow a u s).isLoaded = s.isLoaded ∧
    (setRow a u s).logs = s.logs ∧
    (∀ v, a = true → applyUpdater u s.data = some v →
      (setRow a u s).scheduledSyncs = s.scheduledSyncs ++ [v]) ∧
    (applyUpdater u s.data = none →
      (setRow a u s).scheduledSyncs = s.scheduledSyncs) ∧
    (a = false → (setRow a u s).scheduledSyncs = s.scheduledSyncs) ∧
    (∀ m, (persistComplete (some m) (setRow a u s)).data =
        applyUpdater u s.data ∧
      (persistComplete (some m) (setRow a u s)).logs =
        autoSyncFailMsg m :: s.logs ∧
      (persistComplete (some m) (setRow a u s)).scheduledSyncs =
        (setRow a u s).scheduledSyncs) := by
  refine ⟨rfl, rfl, rfl, ?_, ?_, ?_, ?_⟩
  · intro v ha hv
    simp [setRow, ha, hv]
  · intro hv
    cases a <;> simp [setRow, hv]
  · intro ha
    simp [setRow, ha]
  · intro m
    exact ⟨rfl, rfl, rfl⟩

/-- Witness for C3 at a concrete instance. -/
theorem c3_setRow_optimistic_witness :
    (setRow true (RowUpdater.lit (some 7)) (initEngineState Nat)).data =
        some 7 ∧
    (setRow true (RowUpdater.lit (some 7))
        (initEngineState Nat)).scheduledSyncs = [7] := by
  have h := c3_setRow_optimistic true (RowUpdater.lit (some 7))
    (initEngineState Nat)
  refine ⟨h.1, ?_⟩
  have h2 := h.2.2.2.1 7 rfl rfl
  simpa using h2

/-- C10: after `unsubscribe`, the setter is fully functional: `setRow`
still replaces the local value with the updater's result, and with
`autoSync` true and a non-null result it still schedules exactly one
persist for that payload. -/
theorem c10_set_after_detach {T : Type} (a : Bool) (u : RowUpdater T)
    (s : EngineState T) :
    (setRow a u (unsubscribe s)).data = applyUpdater u s.data ∧
    (∀ v, a = true → applyUpdater u s.data = some v →
      (setRow a u (unsubscribe s)).scheduledSyncs =
        s.scheduledSyncs ++ [v]) := by
  obtain ⟨hd, _, _, hsync⟩ := unsubscribe_fields s
  constructor
  · simp [setRow, hd]
  · intro v ha hv
    simp [setRow, hd, hv, ha, hsync]

/-- Witness for C10 at a concrete instance. -/
theorem c10_set_after_detach_witness :
    (setRow true (RowUpdater.lit (some 4))
        (unsubscribe (initEngineState Nat))).data = some 4 ∧
    (setRow true (RowUpdater.lit (some 4))
        (unsubscribe (initEngineState Nat))).scheduledSyncs = [4] := by
  have h := c10_set_after_detach true (RowUpdater.lit (some 4))
    (initEngineState Nat)
  refine ⟨h.1, ?_⟩
  have h2 := h.2 4 rfl rfl
  simpa using h2

/-- C1 counterexample: an update event with new row 1 is delivered before
the initial read resolves; the read then resolves successfully with row 2,
and `fetchRow` runs `if (row) setData(row)` with no recency check — the
resulting value is the read's row 2, not the event's new row 1, so the read
result is not discarded. -/
theorem c1_counterexample :
    (fetchComplete "profiles" { row := some 2, error := none }
        (deliverChange (ChangeEvent.update 1) (initEngineState Nat))).data =
      some 2 ∧
    (some 2 : Option Nat) ≠ some 1 :=
  ⟨rfl, by decide⟩

/-- C1 amended: when a change-feed event is delivered before the initial
read resolves and the still-mounted read then resolves with a row, the read
overwrites the current value with its own row (last writer wins in delivery
order; the read result is not discarded) and the loaded flag is set to
true. -/
theorem c1_fetch_overwrites_event {T : Type} (t : String)
    (ev : ChangeEvent T) (res : FetchResult T) (s : EngineState T) (r : T)
    (hm : s.isMounted = true) (hr : res.row = some r) :
    (fetchComplete t res (deliverChange ev s)).data = some r ∧
    (fetchComplete t res (deliverChange ev s)).isLoaded = true := by
  have hm2 : (deliverChange ev s).isMounted = true :=
    (deliverChange_isMounted ev s).trans hm
  obtain ⟨row, err⟩ := res
  obtain rfl : row = some r := hr
  constructor
  · unfold fetchComplete
    rw [hm2]
    cases err <;> rfl
  · rw [fetchComplete_isLoaded, hm2]
    rfl

/-- Witness for the amended C1 at a concrete instance. -/
theorem c1_fetch_overwrites_event_witness :
    (fetchComplete "profiles" { row := some 2, error := none }
        (deliverChange (ChangeEvent.update 1) (initEngineState Nat))).data =
      some 2 ∧
    (fetchComplete "profiles" { row := some 2, error := none }
        (deliverChange (ChangeEvent.update 1)
          (initEngineState Nat))).isLoaded = true :=
  c1_fetch_overwrites_event "profiles" (ChangeEvent.update 1)
    { row := some 2, error := none } (initEngineState Nat) 2 rfl rfl

/-- C2 counterexample: `unsubscribe` only removes the realtime channel and
leaves the fetch effect's `isMounted` flag true, so a late read completion
after detach still mutates both cells: from the detached initial state
(value null, loaded false) a resolving read sets value to its row and
loaded to true. -/
theorem c2_counterexample :
    (unsubscribe (initEngineState Nat)).data = none ∧
    (unsubscribe (initEngineState Nat)).isLoaded = false ∧
    (fetchComplete "profiles" { row := some 5, error := none }
        (unsubscribe (initEngineState Nat))).data = some 5 ∧
    (fetchComplete "profiles" { row := some 5, error := none }
        (unsubscribe (initEngineState Nat))).isLoaded = true :=
  ⟨rfl, rfl, rfl, rfl⟩

/-- C2 amended: after `unsubscribe` on an instance whose channel ref is
set, no further change-feed delivery changes the state at all, and calling
`unsubscribe` a second time is safe (no error, no state change).  A
late-resolving initial read is not cancelled by `unsubscribe` — only the
unmount cleanup clears `isMounted`. -/
theorem c2_detach_stops_feed {T : Type} (s : EngineState T)
    (ev : ChangeEvent T) (h : s.channelRef = true) :
    deliverChange ev (unsubscribe s) = unsubscribe s ∧
    unsubscribe (unsubscribe s) = unsubscribe s := by
  constructor
  · unfold unsubscribe
    rw [h]
    simp [deliverChange]
  · unfold unsubscribe
    rw [h]
    simp [h]

/-- Witness for the amended C2 at a concrete instance. -/
theorem c2_detach_stops_feed_witness :
    deliverChange (ChangeEvent.update 9) (unsubscribe (initEngineState Nat)) =
      unsubscribe (initEngineState Nat) ∧
    unsubscribe (unsubscribe (initEngineState Nat)) =
      unsubscribe (initEngineState Nat) :=
  c2_detach_stops_feed (initEngineState Nat) (ChangeEvent.update 9) rfl

/-- C4: when the initial read completes on a still-mounted instance, the
loaded flag is set to true unconditionally — on success and on failure
alike; and when the read errors or returns zero rows (which under the
`.single()` contract always carries an error), the failure is logged via
the logger and the current value is left exactly as it was, never forced to
null. -/
theorem c4_fetch_failure_nonfatal {T : Type} (t : String)
    (res : FetchResult T) (s : EngineState T) (hm : s.isMounted = true)
    (hwf : res.wellFormed) :
    (fetchComplete t res s).isLoaded = true ∧
    ((res.row = none ∨ res.error.isSome = true) →
      (fetchComplete t res s).data = s.data ∧
      ∃ m, res.error = some m ∧
        (fetchComplete t res s).logs = fetchFailMsg t m :: s.logs) := by
  obtain ⟨row, err⟩ := res
  constructor
  · rw [fetchComplete_isLoaded, hm]
    rfl
  · intro hfail
    rcases hwf with ⟨hsome, herr⟩ | ⟨hnone, herr⟩
    · exfalso
      rcases hfail with hnone | hiss
      · rw [hnone] at hsome
        simp at hsome
      · rw [show err = none from herr] at hiss
        simp at hiss
    · obtain rfl : row = none := by
        simpa [Option.isNone_iff_eq_none] using hnone
      obtain ⟨m, rfl⟩ : ∃ m, err = some m := by
        cases err with
        | none => simp at herr
        | some m => exact ⟨m, rfl⟩
      refine ⟨?_, m, rfl, ?_⟩
      · unfold fetchComplete
        rw [hm]
        rfl
      · unfold fetchComplete
        rw [hm]
        rfl

/-- Witness for C4 at a concrete instance. -/
theorem c4_fetch_failure_nonfatal_witness :
    (fetchComplete "profiles" { row := none, error := some "boom" }
        (initEngineState Nat)).isLoaded = true ∧
    (fetchComplete "profiles" { row := none, error := some "boom" }
        (initEngineState Nat)).data = none ∧
    (fetchComplete "profiles" { row := none, error := some "boom" }
        (initEngineState Nat)).logs = [fetchFailMsg "profiles" "boom"] := by
  have h := c4_fetch_failure_nonfatal "profiles"
    { row := (none : Option Nat), error := some "boom" }
    (initEngineState Nat) rfl (Or.inr ⟨rfl, rfl⟩)
  obtain ⟨hload, hrest⟩ := h
  obtain ⟨hdata, m, hm', hlogs⟩ := hrest (Or.inl rfl)
  refine ⟨hload, hdata, ?_⟩
  obtain rfl : m = "boom" := by
    simpa using hm'.symm
  exact hlogs

/-- Once the loaded flag is true, no single step resets it. -/
theorem step_isLoaded_mono {T : Type} (t : String) (a : Bool) (op : Op T)
    (s : EngineState T) (h : s.isLoaded = true) :
    (step t a op s).isLoaded = true := by
  cases op with
  | fetch res =>
    rw [show step t a (Op.fetch res) s = fetchComplete t res s from rfl,
      fetchComplete_isLoaded]
    split
    · exact h
    · rfl
  | change ev =>
    show (deliverChange ev s).isLoaded = true
    unfold deliverChange
    split
    · exact h
    · cases ev <;> simp [h]
  | set u => exact h
  | persistDone err =>
    show (persistComplete err s).isLoaded = true
    cases err <;> exact h
  | unsub =>
    show (unsubscribe s).isLoaded = true
    exact (unsubscribe_fields s).2.1.trans h
  | unmount => exact h

/-- Once the loaded flag is true, it stays true along any run. -/
theorem run_isLoaded_mono {T : Type} (t : String) (a : Bool)
    (ops : List (Op T)) :
    ∀ s : EngineState T, s.isLoaded = true →
      (run t a ops s).isLoaded = true := by
  induction ops with
  | nil => exact fun s h => h
  | cons op rest ih =>
    intro s h
    exact ih (step t a op s) (step_isLoaded_mono t a op s h)

/-- C7: the loaded flag is monotonic — it starts false, no step ever
resets it to false, it stays true along every subsequent sequence of
operations, and the only steps that can turn it from false to true are a
resolution of the initial read or an insert/update change event. -/
theorem c7_isLoaded_monotonic {T : Type} (t : String) (a : Bool) :
    (initEngineState T).isLoaded = false ∧
    (∀ (s : EngineState T) (op : Op T), s.isLoaded = true →
      (step t a op s).isLoaded = true) ∧
    (∀ (ops : List (Op T)) (s : EngineState T), s.isLoaded = true →
      (run t a ops s).isLoaded = true) ∧
    (∀ (s : EngineState T) (op : Op T), s.isLoaded = false →
      (step t a op s).isLoaded = true →
      (∃ res, op = Op.fetch res) ∨
        (∃ r, op = Op.change (ChangeEvent.insert r)) ∨
        (∃ r, op = Op.change (ChangeEvent.update r))) := by
  refine ⟨rfl, fun s op h => step_isLoaded_mono t a op s h,
    fun ops s h => run_isLoaded_mono t a ops s h, ?_⟩
  intro s op h0 h1
  cases op with
  | fetch res => exact Or.inl ⟨res, rfl⟩
  | change ev =>
    cases ev with
    | insert r => exact Or.inr (Or.inl ⟨r, rfl⟩)
    | update r => exact Or.inr (Or.inr ⟨r, rfl⟩)
    | delete =>
      exfalso
      have : (deliverChange ChangeEvent.delete s).isLoaded = s.isLoaded := by
        unfold deliverChange
        split <;> rfl
      rw [show step t a (Op.change ChangeEvent.delete) s =
        deliverChange ChangeEvent.delete s from rfl, this, h0] at h1
      exact Bool.false_ne_true h1
  | set u =>
    exfalso
    rw [show (step t a (Op.set u) s).isLoaded = s.isLoaded from rfl, h0] at h1
    exact Bool.false_ne_true h1
  | persistDone err =>
    exfalso
    have : (persistComplete err s).isLoaded = s.isLoaded := by
      cases err <;> rfl
    rw [show step t a (Op.persistDone err) s = persistComplete err s from rfl,
      this, h0] at h1
    exact Bool.false_ne_true h1
  | unsub =>
    exfalso
    rw [show step t a Op.unsub s = unsubscribe s from rfl,
      (unsubscribe_fields s).2.1, h0] at h1
    exact Bool.false_ne_true h1
  | unmount =>
    exfalso
    rw [show (step t a Op.unmount s).isLoaded = s.isLoaded from rfl, h0] at h1
    exact Bool.false_ne_true h1

/-- Witness for C7 at a concrete instance. -/
theorem c7_isLoaded_monotonic_witness :
    (run "profiles" true [Op.change ChangeEvent.delete, Op.unsub,
        Op.persistDone (some "x")]
      { initEngineState Nat with isLoaded := true }).isLoaded = true :=
  (c7_isLoaded_monotonic "profiles" true).2.2.1 _ _ rfl

/-- C9: `getSupabaseClient` fails with the configuration error exactly when
the registry cell has not been set by `initSupabaseState`, and after
`initSupabaseState` it returns the stored client; every other failure is
absorbed into the logger — a failed fetch only logs and sets the loaded
flag (value untouched), and a failed persist only logs — so no other error
crosses the engine boundary. -/
theorem c9_configuration_error_only (C : Type) :
    (∀ reg : Option C,
      (∃ e, getSupabaseClient reg = Except.error e) ↔ reg = none) ∧
    (∀ (c : C) (reg : Option C),
      getSupabaseClient (initSupabaseState c reg) = Except.ok c) ∧
    (∀ (T : Type) (t m : String) (s : EngineState T), s.isMounted = true →
      (fetchComplete t { row := none, error := some m } s).logs =
          fetchFailMsg t m :: s.logs ∧
        (fetchComplete t { row := none, error := some m } s).data = s.data) ∧
    (∀ (T : Type) (m : String) (s : EngineState T),
      (persistComplete (some m) s).logs = autoSyncFailMsg m :: s.logs ∧
        (persistComplete (some m) s).data = s.data) := by
  refine ⟨?_, fun c reg => rfl, ?_, fun T m s => ⟨rfl, rfl⟩⟩
  · intro reg
    cases reg with
    | none => simp [getSupabaseClient]
    | some c => simp [getSupabaseClient]
  · intro T t m s hm
    constructor
    · unfold fetchComplete
      rw [hm]
      rfl
    · unfold fetchComplete
      rw [hm]
      rfl

/-- Witness for C9 at a concrete instance. -/
theorem c9_configuration_error_only_witness :
    getSupabaseClient (initSupabaseState 42 (none : Option Nat)) =
        Except.ok 42 ∧
    (fetchComplete "t" { row := (none : Option Nat), error := some "x" }
        (initEngineState Nat)).logs = [fetchFailMsg "t" "x"] := by
  have h := c9_configuration_error_only Nat
  exact ⟨h.2.1 42 none, (h.2.2.1 Nat "t" "x" (initEngineState Nat) rfl).1⟩

end UseSupabaseState
